import Mathlib

/-!
Shallow embedding of the knowledge-augmented conversation pipeline of
`src/bot.py`: the chat-memory store (`save_chat_memory` / `load_chat_memory`),
the knowledge lookup (`query_tasks`), the reasoning call (`call_gemini`), the
formula renderer (`render_latex`), and the two message handlers
(`handle_document`, `handle_text`).  Remote collaborators (the reasoning
endpoint, the formula-rendering endpoint) are abstracted as function
parameters returning `Option` (`none` models a raised HTTP error or a missing
field); database tables are chronological lists; side effects of a handler run
are recorded as an ordered trace.
-/

namespace Bot

/-- One persisted row of the `chat_memory` table: `save_chat_memory` inserts
`(chat_id, role, content)` and `load_chat_memory` orders by the
storage-assigned `created_at`, modelled by the position in the chronological
list. -/
structure Turn where
  chat_id : String
  role : String
  content : String
deriving DecidableEq

/-- One role-tagged message sent to the reasoning endpoint. -/
structure Msg where
  role : String
  content : String
deriving DecidableEq

/-- One row of the pre-existing `gd24_tasks` table read by `query_tasks`
(`SELECT *` returns whole rows; only the columns the query inspects are
modelled). -/
structure TaskRow where
  file_id : String
  question : String
deriving DecidableEq

/-- One row of the `pdf_knowledge` table written by `handle_document`. -/
structure KnowledgeUnit where
  file_id : String
  content : String
deriving DecidableEq

/-- The transient per-conversation state kept in `context.user_data`:
`systemMessage` is the awaiting-system-priming flag, `last_pdf_id` the active
document. -/
structure ConvState where
  systemMessage : Bool
  last_pdf_id : Option String
deriving DecidableEq

/-- Lower-cases one character the way Python `str.lower` does, restricted to
the ASCII and Cyrillic alphabets (the alphabets occurring in the source's
string literals). -/
def pyLowerChar (c : Char) : Char :=
  if 'A' ≤ c ∧ c ≤ 'Z' then Char.ofNat (c.toNat + 32)
  else if 'А' ≤ c ∧ c ≤ 'Я' then Char.ofNat (c.toNat + 32)
  else if c = 'Ё' then 'ё'
  else c

/-- Python `str.lower` on the character list of a string. -/
def pyLower (s : List Char) : List Char :=
  s.map pyLowerChar

/-- Tests whether the first list is a leading segment of the second (helper
for the Python `in` substring test). -/
def startsWithL : List Char → List Char → Bool
  | [], _ => true
  | _ :: _, [] => false
  | a :: as, b :: bs => a = b && startsWithL as bs

/-- Python `needle in hay` substring containment, on character lists. -/
def containsSub (needle : List Char) : List Char → Bool
  | [] => startsWithL needle []
  | c :: rest => startsWithL needle (c :: rest) || containsSub needle rest

/-- The greeting keywords of `handle_text`. -/
def greetWords : List String := ["hi", "hello", "привет", "здравствуй"]

/-- The test `any(w in text.lower() for w in ['hi', 'hello', 'привет',
'здравствуй'])` of `handle_text`. -/
def isGreeting (text : String) : Bool :=
  greetWords.any fun w => containsSub w.data (pyLower text.data)

/-- Appends one turn, as `save_chat_memory`: `INSERT INTO chat_memory
(chat_id, role, content)` with a storage-assigned timestamp, modelled as
appending to the chronological log. -/
def save_chat_memory (store : List Turn) (chat_id role content : String) : List Turn :=
  store ++ [⟨chat_id, role, content⟩]

/-- Reads the recent window, as `load_chat_memory`: `SELECT role, content FROM
chat_memory WHERE chat_id = %s ORDER BY created_at DESC LIMIT %s` followed by
the Python reversal `rows[::-1]`. -/
def load_chat_memory (store : List Turn) (chat_id : String) (limit : Nat) : List Turn :=
  ((store.filter fun t => t.chat_id == chat_id).reverse.take limit).reverse

/-- SQL `LIKE` pattern matching with `%` (any sequence), `_` (any single
character) and PostgreSQL's default escape character `\`, under which the
following pattern character is matched literally (so `\f` in the pattern
matches a literal `f`, and `\\` a literal backslash).  A pattern ending in a
bare escape character is an error in PostgreSQL and matches nothing here; it
is unreachable from `query_tasks`, whose bound pattern `'%' + text + '%'`
always ends in `%`.  Written with explicit fuel so that it is structurally
recursive; fuel `pat.length + s.length + 1` always suffices. -/
def likeF : Nat → List Char → List Char → Bool
  | 0, _, _ => false
  | _ + 1, [], [] => true
  | _ + 1, [], _ :: _ => false
  | n + 1, '\\' :: p :: ps, s =>
      (match s with
       | [] => false
       | c :: s2 => p = c && likeF n ps s2)
  | _ + 1, ['\\'], _ => false
  | n + 1, '%' :: ps, s =>
      likeF n ps s ||
        (match s with
         | [] => false
         | _ :: s2 => likeF n ('%' :: ps) s2)
  | n + 1, '_' :: ps, s =>
      (match s with
       | [] => false
       | _ :: s2 => likeF n ps s2)
  | n + 1, p :: ps, s =>
      (match s with
       | [] => false
       | c :: s2 => p = c && likeF n ps s2)

/-- PostgreSQL `ILIKE`: case-insensitive `LIKE`, modelled by lower-casing both
sides before matching (lower-casing preserves `%`, `_` and the `\` escape, and
lowers an escaped letter on both sides alike). -/
def ilike (s pat : String) : Bool :=
  likeF (pat.length + s.length + 1) (pyLower pat.data) (pyLower s.data)

/-- Knowledge lookup, as `query_tasks`: `SELECT * FROM gd24_tasks WHERE
file_id = %s AND question ILIKE %s LIMIT 5` with the pattern
`'%' + text + '%'`; the table is scanned in storage order and the first five
matching rows are returned. -/
def query_tasks (tasks : List TaskRow) (file_id text : String) : List TaskRow :=
  (tasks.filter fun r => r.file_id == file_id && ilike r.question ("%" ++ text ++ "%")).take 5

/-- The default system directive of `call_gemini`. -/
def defaultDirective : String :=
  "You are a “Smart Math & Physics Solver” intelligent assistant with ability to accumulate and apply scientific knowledge from admin-provided PDFs."

/-- The message sequence assembled by `call_gemini`: one system message (the
default directive, or the literal `user_text` when `system_message` is set),
the replayed memory window, and — only when `system_message` is not set — a
final user message. -/
def call_gemini_messages (memory : List Turn) (user_text : String) (system_message : Bool) :
    List Msg :=
  ⟨"system", if system_message then user_text else defaultDirective⟩ ::
    (memory.map fun t => (⟨t.role, t.content⟩ : Msg)) ++
      (if system_message then [] else [⟨"user", user_text⟩])

/-- The reasoning call, as `call_gemini`.  The remote endpoint is abstracted
by `api`, which returns `none` when `resp.raise_for_status()` raises or the
reply field is missing, and otherwise the reply content.  On failure the
exception propagates and the memory store is untouched; on success the user
turn and then the assistant turn are appended.  The assembled request messages
are returned alongside for the effect trace. -/
def call_gemini (store : List Turn) (chat_id user_text : String) (system_message : Bool)
    (api : List Msg → Option String) : List Msg × Option (String × List Turn) :=
  let memory := load_chat_memory store chat_id 20
  let msgs := call_gemini_messages memory user_text system_message
  match api msgs with
  | none => (msgs, none)
  | some content =>
      (msgs, some (content,
        save_chat_memory (save_chat_memory store chat_id "user" user_text)
          chat_id "assistant" content))

/-- Python `str.replace` on character lists, with explicit fuel; fuel
`hay.length + 1` suffices for a non-empty pattern. -/
def replaceF : Nat → List Char → List Char → List Char → List Char
  | 0, hay, _, _ => hay
  | _ + 1, [], _, _ => []
  | n + 1, c :: rest, pat, rep =>
      if startsWithL pat (c :: rest) && !pat.isEmpty then
        rep ++ replaceF n ((c :: rest).drop pat.length) pat rep
      else c :: replaceF n rest pat rep

/-- Python `str.replace`, for the two substitutions of the rich reply path. -/
def pyReplace (s pat rep : String) : String :=
  ⟨replaceF (s.data.length + 1) s.data pat.data rep.data⟩

/-- The hardcoded formula of the rich reply path in `handle_text`
(`expr = "A = A_0 \left(\frac\x7b1\x7d\x7b2\x7d\right)^\x7bt/T_\x7b1/2\x7d\x7d"`
with doubled backslashes in the Python literal). -/
def hardcodedExpr : String :=
  "A = A_0 \\left(\\frac\x7b1\x7d\x7b2\x7d\\right)^\x7bt/T_\x7b1/2\x7d\x7d"

/-- Observable side effects of the handlers, in order of occurrence. -/
inductive Effect where
  | replyText (s : String)
  | queryTasksCall (file_id text : String)
  | geminiCall (msgs : List Msg)
  | renderCall (expr : String)
  | replyHtml (s : String)
  | replyPhoto (path : String)
deriving DecidableEq

/-- Unhandled exceptions that abort a handler turn: a reasoning-endpoint
failure, a formula-renderer failure, or a raise from the PDF reader /
text extractor on an unreadable document. -/
inductive HandleErr where
  | upstream
  | render
  | pdfread
deriving DecidableEq

/-- The fixed greeting reply of `handle_text`. -/
def greetingReply : String := "Привет! Чем могу помочь?"

/-- Result of one `handle_text` run: final conversation state, final memory
store, the emitted effects in order, and the exception that aborted the turn,
if any. -/
structure HandleResult where
  state : ConvState
  store : List Turn
  effects : List Effect
  error : Option HandleErr
deriving DecidableEq

/-- The knowledge-lookup step of a normal `handle_text` turn: `query_tasks`
is called exactly when a document is active (`last_pdf = context.user_data.get('last_pdf_id')`);
its result is unused by the source (`# Можно вставить задачи в prompt`). -/
def lookupEffects (st : ConvState) (text : String) : List Effect :=
  match st.last_pdf_id with
  | some pdf => [Effect.queryTasksCall pdf text]
  | none => []

/-- The text handler `handle_text`, with the remote reasoning endpoint
abstracted by `api` and the formula renderer (`render_latex`, which raises on
a non-success response) abstracted by `renderer` (`none` models failure,
`some path` the temp image path). -/
def handle_text (st : ConvState) (store : List Turn) (chat_id text : String)
    (api : List Msg → Option String) (renderer : String → Option String) : HandleResult :=
  if isGreeting text then
    ⟨st, store, [.replyText greetingReply], none⟩
  else if st.systemMessage then
    ⟨{ st with systemMessage := false }, store, [], none⟩
  else
    let eff0 : List Effect := lookupEffects st text
    match call_gemini store chat_id text false api with
    | (msgs, none) => ⟨st, store, eff0 ++ [.geminiCall msgs], some .upstream⟩
    | (msgs, some (answer, store2)) =>
        if containsSub ['$'] answer.data then
          match renderer hardcodedExpr with
          | none =>
              ⟨st, store2, eff0 ++ [.geminiCall msgs, .renderCall hardcodedExpr], some .render⟩
          | some path =>
              ⟨st, store2,
                eff0 ++ [.geminiCall msgs, .renderCall hardcodedExpr,
                  .replyHtml (pyReplace (pyReplace answer "**" "<b>") "$" ""),
                  .replyPhoto path],
                none⟩
        else
          ⟨st, store2, eff0 ++ [.geminiCall msgs, .replyText answer], none⟩

/-- Python `"\n".join`, by recursion on the list of page texts: the separator
stands between consecutive elements. -/
def joinNL : List String → String
  | [] => ""
  | [s] => s
  | s :: rest => s ++ "\n" ++ joinNL rest

/-- Joins per-page extraction results, as `"\n".join(p.extract_text() or ""
for p in reader.pages)`: a page whose extraction yields nothing (Python `None`
or an empty string) contributes the empty string. -/
def extractText (pages : List (Option String)) : String :=
  joinNL (pages.map fun p => p.getD "")

/-- The admin-rejection reply of `handle_document`. -/
def adminOnlyReply : String := "Извините, только админ может загружать PDF для обучения."

/-- The success reply of `handle_document`. -/
def savedReply : String := "PDF успешно сохранён в базе знаний."

/-- Result of one `handle_document` run: final knowledge table, final
conversation state, the emitted effects in order, and the exception that
aborted the turn, if any. -/
structure DocResult where
  knowledge : List KnowledgeUnit
  state : ConvState
  effects : List Effect
  error : Option HandleErr
deriving DecidableEq

/-- The document handler `handle_document`: non-admin uploads are rejected;
otherwise `PdfReader(file_path)` / `extract_text()` run with no surrounding
try/except — `extraction = none` models a raise on an unreadable or corrupt
document, which propagates: nothing is stored and the state is unchanged —
and `extraction = some pages` the per-page results.  On success the
newline-joined text is inserted into `pdf_knowledge`, the conversation state
records the document and sets the priming flag, and a confirmation is sent. -/
def handle_document (user_id admin_id : Int) (file_id : String)
    (extraction : Option (List (Option String)))
    (knowledge : List KnowledgeUnit) (st : ConvState) : DocResult :=
  if user_id ≠ admin_id then
    ⟨knowledge, st, [.replyText adminOnlyReply], none⟩
  else
    match extraction with
    | none => ⟨knowledge, st, [], some .pdfread⟩
    | some pages =>
        ⟨knowledge ++ [⟨file_id, extractText pages⟩],
         ⟨true, some file_id⟩,
         [.replyText savedReply],
         none⟩

/-- The spec's matching predicate, stated from its words: the stored text
case-insensitively contains the query text as a literal substring.  Declared
only to compare against the source-derived `query_tasks`. -/
def specContainsCI (query_text stored : String) : Bool :=
  containsSub (pyLower query_text.data) (pyLower stored.data)

/-- Helper: the recent window equals the tail window of the chronological
per-conversation log. -/
theorem load_chat_memory_eq_drop (store : List Turn) (cid : String) (n : Nat) :
    load_chat_memory store cid n =
      (store.filter fun t => t.chat_id == cid).drop
        ((store.filter fun t => t.chat_id == cid).length - n) := by
  rw [load_chat_memory, ← List.rtake_eq_reverse_take_reverse]
  rfl

/-- Helper: a greeting text short-circuits `handle_text` to the fixed reply. -/
theorem handle_text_greeting_eq (st : ConvState) (store : List Turn) (cid text : String)
    (api : List Msg → Option String) (renderer : String → Option String)
    (hg : isGreeting text = true) :
    handle_text st store cid text api renderer =
      ⟨st, store, [Effect.replyText greetingReply], none⟩ := by
  simp [handle_text, hg]

/-- Helper: a non-greeting text arriving while the priming flag is set only
resets the flag. -/
theorem handle_text_priming_eq (st : ConvState) (store : List Turn) (cid text : String)
    (api : List Msg → Option String) (renderer : String → Option String)
    (hg : isGreeting text = false) (hp : st.systemMessage = true) :
    handle_text st store cid text api renderer =
      ⟨{ st with systemMessage := false }, store, [], none⟩ := by
  simp [handle_text, hg, hp]

/-- Helper: normal turn whose remote call fails: the request was posted, the
exception propagates, the store is untouched and nothing is sent to the user. -/
theorem handle_text_upstream_eq (st : ConvState) (store : List Turn) (cid text : String)
    (api : List Msg → Option String) (renderer : String → Option String)
    (hg : isGreeting text = false) (hp : st.systemMessage = false)
    (hapi : api (call_gemini_messages (load_chat_memory store cid 20) text false) = none) :
    handle_text st store cid text api renderer =
      ⟨st, store,
        lookupEffects st text ++
          [Effect.geminiCall (call_gemini_messages (load_chat_memory store cid 20) text false)],
        some .upstream⟩ := by
  simp [handle_text, hg, hp, call_gemini, hapi]

/-- Helper: normal turn, successful reply without a formula marker: the two
turns are appended and the reply is sent as plain text. -/
theorem handle_text_plain_eq (st : ConvState) (store : List Turn) (cid text answer : String)
    (api : List Msg → Option String) (renderer : String → Option String)
    (hg : isGreeting text = false) (hp : st.systemMessage = false)
    (hapi : api (call_gemini_messages (load_chat_memory store cid 20) text false) = some answer)
    (hd : containsSub ['$'] answer.data = false) :
    handle_text st store cid text api renderer =
      ⟨st, store ++ [⟨cid, "user", text⟩, ⟨cid, "assistant", answer⟩],
        lookupEffects st text ++
          [Effect.geminiCall (call_gemini_messages (load_chat_memory store cid 20) text false),
           Effect.replyText answer],
        none⟩ := by
  simp [handle_text, hg, hp, call_gemini, hapi, hd, save_chat_memory]

/-- Helper: normal turn, successful reply with a formula marker, renderer
failure: the exception propagates after the memory write and before any
outbound message. -/
theorem handle_text_renderfail_eq (st : ConvState) (store : List Turn) (cid text answer : String)
    (api : List Msg → Option String) (renderer : String → Option String)
    (hg : isGreeting text = false) (hp : st.systemMessage = false)
    (hapi : api (call_gemini_messages (load_chat_memory store cid 20) text false) = some answer)
    (hd : containsSub ['$'] answer.data = true)
    (hr : renderer hardcodedExpr = none) :
    handle_text st store cid text api renderer =
      ⟨st, store ++ [⟨cid, "user", text⟩, ⟨cid, "assistant", answer⟩],
        lookupEffects st text ++
          [Effect.geminiCall (call_gemini_messages (load_chat_memory store cid 20) text false),
           Effect.renderCall hardcodedExpr],
        some .render⟩ := by
  simp [handle_text, hg, hp, call_gemini, hapi, hd, hr, save_chat_memory]

/-- Helper: normal turn, successful reply with a formula marker, renderer
success: styled text and the image are sent. -/
theorem handle_text_renderok_eq (st : ConvState) (store : List Turn)
    (cid text answer path : String)
    (api : List Msg → Option String) (renderer : String → Option String)
    (hg : isGreeting text = false) (hp : st.systemMessage = false)
    (hapi : api (call_gemini_messages (load_chat_memory store cid 20) text false) = some answer)
    (hd : containsSub ['$'] answer.data = true)
    (hr : renderer hardcodedExpr = some path) :
    handle_text st store cid text api renderer =
      ⟨st, store ++ [⟨cid, "user", text⟩, ⟨cid, "assistant", answer⟩],
        lookupEffects st text ++
          [Effect.geminiCall (call_gemini_messages (load_chat_memory store cid 20) text false),
           Effect.renderCall hardcodedExpr,
           Effect.replyHtml (pyReplace (pyReplace answer "**" "<b>") "$" ""),
           Effect.replyPhoto path],
        none⟩ := by
  simp [handle_text, hg, hp, call_gemini, hapi, hd, hr, save_chat_memory]

/-- Helper: every character of the newline-join of all-empty strings is a
newline. -/
theorem joinNL_all_empty (l : List String) (h : ∀ s ∈ l, s = "") :
    (joinNL l).data.all (fun c => c = '\n') = true := by
  induction l with
  | nil => rfl
  | cons s rest ih =>
    cases rest with
    | nil =>
      have hs := h s (List.mem_cons_self s _)
      subst hs
      rfl
    | cons t rest2 =>
      have hs := h s (List.mem_cons_self s _)
      have ih2 := ih (fun x hx => h x (List.mem_cons_of_mem s hx))
      subst hs
      show (("" ++ "\n" ++ joinNL (t :: rest2)).data.all (fun c => c = '\n')) = true
      rw [String.data_append, String.data_append]
      simp only [List.all_append]
      simp [ih2]

/-- C1 (counterexample): a text turn arriving while the priming flag is true is
dropped outright — the handler run has an empty effect trace (no assembled
context, no reasoning request), so the literal user text is never promoted to a
system message, contrary to the claim. -/
theorem C1_promotion_counterexample :
    handle_text ⟨true, none⟩ [] "c" "Answer only in rhyme"
      (fun _ => some "ok") (fun _ => some "img") =
      ⟨⟨false, none⟩, [], [], none⟩ := by
  decide

/-- C1 (amended): while the priming flag is true, a non-greeting text turn is
absorbed: the flag is reset and the handler returns with no effects — no
context assembly, no reasoning call, no reply and no memory write; promotion of
the literal user text to the sole system message (with no final user message
appended) exists only through the assembly's `system_message` parameter, which
the text handler never sets. -/
theorem C1_priming_turn_absorbed :
    (∀ (st : ConvState) (store : List Turn) (cid text : String)
        (api : List Msg → Option String) (renderer : String → Option String),
        isGreeting text = false → st.systemMessage = true →
        handle_text st store cid text api renderer =
          ⟨{ st with systemMessage := false }, store, [], none⟩) ∧
    (∀ (memory : List Turn) (user_text : String),
        call_gemini_messages memory user_text true =
          ⟨"system", user_text⟩ :: memory.map fun t => (⟨t.role, t.content⟩ : Msg)) := by
  constructor
  · intro st store cid text api renderer hg hp
    exact handle_text_priming_eq st store cid text api renderer hg hp
  · intro memory user_text
    simp [call_gemini_messages]

/-- Witness for C1: a concrete priming turn is absorbed, and a concrete primed
assembly has the literal text as its sole system message and no user turn. -/
theorem C1_priming_turn_absorbed_witness :
    handle_text ⟨true, none⟩ [] "c" "Be strict"
      (fun _ => some "ok") (fun _ => some "img") = ⟨⟨false, none⟩, [], [], none⟩ ∧
    call_gemini_messages [⟨"c", "user", "q"⟩] "Be strict" true =
      [⟨"system", "Be strict"⟩, ⟨"user", "q"⟩] := by
  constructor
  · exact C1_priming_turn_absorbed.1 ⟨true, none⟩ [] "c" "Be strict"
      (fun _ => some "ok") (fun _ => some "img") (by decide) rfl
  · exact C1_priming_turn_absorbed.2 [⟨"c", "user", "q"⟩] "Be strict"

/-- C2 (confirmed): the reasoning call writes memory only after a successful
reply — a failed remote call (`api` returning `none`, modelling a non-success
status or a missing reply field) leaves the store untouched, and a successful
call appends exactly the pair (user, user_text) then (assistant, reply). -/
theorem C2_memory_write_after_success (store : List Turn) (cid user_text : String) (sm : Bool)
    (api : List Msg → Option String) :
    ((call_gemini store cid user_text sm api).2 = none ↔
        api (call_gemini_messages (load_chat_memory store cid 20) user_text sm) = none) ∧
    (∀ (reply : String) (newStore : List Turn),
        (call_gemini store cid user_text sm api).2 = some (reply, newStore) →
        api (call_gemini_messages (load_chat_memory store cid 20) user_text sm) = some reply ∧
        newStore = store ++ [⟨cid, "user", user_text⟩, ⟨cid, "assistant", reply⟩]) := by
  cases hapi : api (call_gemini_messages (load_chat_memory store cid 20) user_text sm) with
  | none =>
    constructor
    · simp [call_gemini, hapi]
    · intro reply newStore hsome
      simp [call_gemini, hapi] at hsome
  | some content =>
    constructor
    · simp [call_gemini, hapi]
    · intro reply newStore hsome
      have hval : (call_gemini store cid user_text sm api).2 =
          some (content,
            (store ++ [⟨cid, "user", user_text⟩]) ++ [⟨cid, "assistant", content⟩]) := by
        simp [call_gemini, hapi, save_chat_memory]
      rw [hval] at hsome
      injection hsome with hpair
      injection hpair with h1 h2
      subst h1
      subst h2
      exact ⟨rfl, by simp⟩

/-- Witness for C2: a concrete successful call appends exactly the two turns. -/
theorem C2_memory_write_after_success_witness :
    (fun _ => (some "ok" : Option String))
        (call_gemini_messages (load_chat_memory [] "c" 20) "Hello" false) = some "ok" ∧
    [(⟨"c", "user", "Hello"⟩ : Turn), ⟨"c", "assistant", "ok"⟩] =
      [] ++ [⟨"c", "user", "Hello"⟩, ⟨"c", "assistant", "ok"⟩] :=
  (C2_memory_write_after_success [] "c" "Hello" false (fun _ => some "ok")).2 "ok"
    [⟨"c", "user", "Hello"⟩, ⟨"c", "assistant", "ok"⟩] (by decide)

/-- C3 (confirmed): the recent window returns at most `limit` turns in
chronological order (the most recent `limit` when more exist); appending turns
t1..tn to a conversation with no prior turns makes recent(C, n) return exactly
[t1..tn]; recent of a conversation with no turns returns the empty sequence. -/
theorem C3_recent_window :
    (∀ (store : List Turn) (cid : String) (n : Nat),
        (load_chat_memory store cid n).length ≤ n) ∧
    (∀ (store : List Turn) (cid : String) (n : Nat),
        load_chat_memory store cid n =
          (store.filter fun t => t.chat_id == cid).drop
            ((store.filter fun t => t.chat_id == cid).length - n)) ∧
    (∀ (prior ts : List Turn) (cid : String),
        (∀ t ∈ prior, t.chat_id ≠ cid) → (∀ t ∈ ts, t.chat_id = cid) →
        load_chat_memory (prior ++ ts) cid ts.length = ts) ∧
    (∀ (store : List Turn) (cid : String) (n : Nat),
        store.filter (fun t => t.chat_id == cid) = [] →
        load_chat_memory store cid n = []) := by
  refine ⟨?_, ?_, ?_, ?_⟩
  · intro store cid n
    rw [load_chat_memory]
    simp only [List.length_reverse, List.length_take]
    omega
  · intro store cid n
    exact load_chat_memory_eq_drop store cid n
  · intro prior ts cid h1 h2
    have hp : prior.filter (fun t => t.chat_id == cid) = [] := by
      rw [List.filter_eq_nil_iff]
      intro a ha
      simp only [beq_iff_eq]
      exact h1 a ha
    have ht : ts.filter (fun t => t.chat_id == cid) = ts := by
      rw [List.filter_eq_self]
      intro a ha
      simp [h2 a ha]
    rw [load_chat_memory, List.filter_append, hp, ht, List.nil_append,
      ← List.length_reverse ts, List.take_length, List.reverse_reverse]
  · intro store cid n h
    rw [load_chat_memory, h]
    simp

/-- Witness for C3: a two-turn round trip through a store that already holds
another conversation's turn. -/
theorem C3_recent_window_witness :
    load_chat_memory ([⟨"d", "user", "x"⟩] ++ [⟨"c", "user", "t1"⟩, ⟨"c", "assistant", "t2"⟩])
      "c" 2 = [⟨"c", "user", "t1"⟩, ⟨"c", "assistant", "t2"⟩] :=
  C3_recent_window.2.2.1 [⟨"d", "user", "x"⟩] [⟨"c", "user", "t1"⟩, ⟨"c", "assistant", "t2"⟩]
    "c" (by decide) (by decide)

/-- C4 (counterexample): ingesting document D whose content contains the query
and then searching D returns nothing — `handle_document` inserts into
`pdf_knowledge` while `query_tasks` reads the separate `gd24_tasks` table
(which nothing in the repository populates), so a stored unit whose text
case-insensitively contains the query text is not returned, contrary to the
claim's "returned exactly when". -/
theorem C4_search_counterexample :
    (handle_document 5 5 "D" (some [some "the impulse formula"]) [] ⟨false, none⟩).knowledge =
      [⟨"D", "the impulse formula"⟩] ∧
    specContainsCI "impulse" "the impulse formula" = true ∧
    query_tasks [] "D" "impulse" = [] := by
  decide

/-- C4 (amended): search reads the pre-existing task bank, not the ingested
knowledge units: it returns at most 5 rows, each drawn from the task table,
carrying the requested document identifier, with `question` matching the SQL
pattern %query_text% case-insensitively (wildcards inside the query are
interpreted, not literal); a row with a different identifier is never
returned. -/
theorem C4_search_contract (tasks : List TaskRow) (fid q : String) :
    (query_tasks tasks fid q).length ≤ 5 ∧
    (∀ r ∈ query_tasks tasks fid q,
        r ∈ tasks ∧ r.file_id = fid ∧ ilike r.question ("%" ++ q ++ "%") = true) ∧
    (∀ r ∈ tasks, r.file_id ≠ fid → r ∉ query_tasks tasks fid q) := by
  refine ⟨?_, ?_, ?_⟩
  · rw [query_tasks]
    simp only [List.length_take]
    omega
  · intro r hr
    rw [query_tasks] at hr
    have hmem := List.mem_of_mem_take hr
    rw [List.mem_filter] at hmem
    obtain ⟨hin, hpred⟩ := hmem
    rw [Bool.and_eq_true] at hpred
    obtain ⟨hfid, hq⟩ := hpred
    exact ⟨hin, by simpa using hfid, hq⟩
  · intro r _ hneq hmem
    rw [query_tasks] at hmem
    have hmem2 := List.mem_of_mem_take hmem
    rw [List.mem_filter] at hmem2
    obtain ⟨_, hpred⟩ := hmem2
    rw [Bool.and_eq_true] at hpred
    exact hneq (by simpa using hpred.1)

/-- Witness for C4: a concrete task bank; the matching row under D is returned
and matches the pattern, while the row under E is excluded. -/
theorem C4_search_contract_witness :
    (query_tasks [⟨"D", "Find the impulse of the body"⟩, ⟨"E", "impulse elsewhere"⟩]
        "D" "impulse").length ≤ 5 ∧
    ilike "Find the impulse of the body" ("%" ++ "impulse" ++ "%") = true ∧
    (⟨"E", "impulse elsewhere"⟩ : TaskRow) ∉
      query_tasks [⟨"D", "Find the impulse of the body"⟩, ⟨"E", "impulse elsewhere"⟩]
        "D" "impulse" := by
  have h := C4_search_contract
    [⟨"D", "Find the impulse of the body"⟩, ⟨"E", "impulse elsewhere"⟩] "D" "impulse"
  exact ⟨h.1,
    (h.2.1 ⟨"D", "Find the impulse of the body"⟩ (by decide)).2.2,
    h.2.2 ⟨"E", "impulse elsewhere"⟩ (by decide) (by decide)⟩

/-- C5 (counterexample): with the priming flag set, a turn whose text contains
a greeting keyword takes the greeting shortcut and returns with the flag still
true — the flag is not reset "regardless of the content of the intervening
turn". -/
theorem C5_consumption_counterexample :
    handle_text ⟨true, none⟩ [] "c" "hi" (fun _ => some "ok") (fun _ => some "img") =
      ⟨⟨true, none⟩, [], [Effect.replyText greetingReply], none⟩ := by
  decide

/-- C5 (amended): priming consumption is exactly-once for non-greeting turns:
one non-greeting text turn handled while the flag is true resets it to false,
and a subsequent non-greeting text turn is forwarded to the reasoning model as
a normal user turn — its posted context starts with the default system
directive and ends with the text as a user message. -/
theorem C5_priming_consumed_once :
    (∀ (st : ConvState) (store : List Turn) (cid text : String)
        (api : List Msg → Option String) (renderer : String → Option String),
        isGreeting text = false → st.systemMessage = true →
        (handle_text st store cid text api renderer).state.systemMessage = false) ∧
    (∀ (st : ConvState) (store : List Turn) (cid text : String)
        (api : List Msg → Option String) (renderer : String → Option String),
        isGreeting text = false → st.systemMessage = false →
        Effect.geminiCall (call_gemini_messages (load_chat_memory store cid 20) text false) ∈
          (handle_text st store cid text api renderer).effects) ∧
    (∀ (memory : List Turn) (text : String),
        (call_gemini_messages memory text false).head? = some ⟨"system", defaultDirective⟩ ∧
        (call_gemini_messages memory text false).getLast? = some ⟨"user", text⟩) := by
  refine ⟨?_, ?_, ?_⟩
  · intro st store cid text api renderer hg hp
    rw [handle_text_priming_eq st store cid text api renderer hg hp]
  · intro st store cid text api renderer hg hp
    cases hapi : api (call_gemini_messages (load_chat_memory store cid 20) text false) with
    | none =>
      rw [handle_text_upstream_eq st store cid text api renderer hg hp hapi]
      simp
    | some answer =>
      cases hd : containsSub ['$'] answer.data with
      | false =>
        rw [handle_text_plain_eq st store cid text answer api renderer hg hp hapi hd]
        simp
      | true =>
        cases hr : renderer hardcodedExpr with
        | none =>
          rw [handle_text_renderfail_eq st store cid text answer api renderer hg hp hapi hd hr]
          simp
        | some path =>
          rw [handle_text_renderok_eq st store cid text answer path api renderer hg hp hapi hd hr]
          simp
  · intro memory text
    constructor
    · simp [call_gemini_messages]
    · show ((⟨"system", defaultDirective⟩ : Msg) ::
          ((memory.map fun t => (⟨t.role, t.content⟩ : Msg)) ++ [⟨"user", text⟩])).getLast? =
          some ⟨"user", text⟩
      rw [← List.cons_append, List.getLast?_concat]

/-- Witness for C5: a concrete two-turn sequence: the priming turn resets the
flag, and the follow-up question is posted as a normal user turn. -/
theorem C5_priming_consumed_once_witness :
    (handle_text ⟨true, none⟩ [] "c" "Be strict"
        (fun _ => some "ok") (fun _ => some "img")).state.systemMessage = false ∧
    Effect.geminiCall (call_gemini_messages (load_chat_memory [] "c" 20) "what is 2+2" false) ∈
      (handle_text ⟨false, none⟩ [] "c" "what is 2+2"
        (fun _ => some "4") (fun _ => some "img")).effects ∧
    (call_gemini_messages [] "what is 2+2" false).getLast? = some ⟨"user", "what is 2+2"⟩ := by
  refine ⟨?_, ?_, ?_⟩
  · exact C5_priming_consumed_once.1 ⟨true, none⟩ [] "c" "Be strict"
      (fun _ => some "ok") (fun _ => some "img") (by decide) rfl
  · exact C5_priming_consumed_once.2.1 ⟨false, none⟩ [] "c" "what is 2+2"
      (fun _ => some "4") (fun _ => some "img") (by decide) rfl
  · exact (C5_priming_consumed_once.2.2 [] "what is 2+2").2

/-- C6 (counterexample): a reply containing the marker, with a failing formula
endpoint: the handler raises (`render` error) and emits nothing — no styled
text is sent and the turn aborts, contrary to the claimed fallback. -/
theorem C6_render_counterexample :
    handle_text ⟨false, none⟩ [] "c" "radioactive decay"
      (fun _ => some "Use $A$") (fun _ => none) =
      ⟨⟨false, none⟩,
       [⟨"c", "user", "radioactive decay"⟩, ⟨"c", "assistant", "Use $A$"⟩],
       [Effect.geminiCall [⟨"system", defaultDirective⟩, ⟨"user", "radioactive decay"⟩],
        Effect.renderCall hardcodedExpr],
       some .render⟩ := by
  decide

/-- C6 (amended): when the reply contains the formula marker and the formula
endpoint fails, the handler does not fall back: the renderer's exception
propagates (the turn aborts with a render error) and no outbound message of
any kind — plain text, styled text or photo — is emitted for that turn. -/
theorem C6_render_failure_aborts (st : ConvState) (store : List Turn)
    (cid text answer : String) (api : List Msg → Option String)
    (renderer : String → Option String)
    (hg : isGreeting text = false) (hp : st.systemMessage = false)
    (hapi : api (call_gemini_messages (load_chat_memory store cid 20) text false) = some answer)
    (hd : containsSub ['$'] answer.data = true)
    (hr : renderer hardcodedExpr = none) :
    (handle_text st store cid text api renderer).error = some .render ∧
    (∀ s, Effect.replyText s ∉ (handle_text st store cid text api renderer).effects) ∧
    (∀ s, Effect.replyHtml s ∉ (handle_text st store cid text api renderer).effects) ∧
    (∀ s, Effect.replyPhoto s ∉ (handle_text st store cid text api renderer).effects) := by
  rw [handle_text_renderfail_eq st store cid text answer api renderer hg hp hapi hd hr]
  refine ⟨rfl, ?_, ?_, ?_⟩ <;>
    intro s <;>
    cases hlp : st.last_pdf_id <;>
    simp [lookupEffects, hlp]

/-- Witness for C6: the concrete render-failure run aborts with no output. -/
theorem C6_render_failure_aborts_witness :
    (handle_text ⟨false, none⟩ [] "c" "decay" (fun _ => some "Use $A$") (fun _ => none)).error =
      some .render ∧
    Effect.replyText "Use $A$" ∉
      (handle_text ⟨false, none⟩ [] "c" "decay"
        (fun _ => some "Use $A$") (fun _ => none)).effects := by
  have h := C6_render_failure_aborts ⟨false, none⟩ [] "c" "decay" "Use $A$"
    (fun _ => some "Use $A$") (fun _ => none) (by decide) rfl rfl (by decide) rfl
  exact ⟨h.1, h.2.1 "Use $A$"⟩

/-- C7 (code evaluated at the failing input): for the reply "It is $E=mc^2$"
the markup posted to the formula endpoint is the hardcoded radioactive-decay
expression, not the delimited substring "E=mc^2" of the reply. -/
theorem C7_hardcoded_formula :
    (handle_text ⟨false, none⟩ [] "c" "decay law"
        (fun _ => some "It is $E=mc^2$") (fun _ => some "img")).effects =
      [Effect.geminiCall [⟨"system", defaultDirective⟩, ⟨"user", "decay law"⟩],
       Effect.renderCall hardcodedExpr,
       Effect.replyHtml "It is E=mc^2",
       Effect.replyPhoto "img"] ∧
    hardcodedExpr ≠ "E=mc^2" := by
  decide

/-- C8 (confirmed): a reply without the formula marker is emitted as plain
text exactly as-is, with zero calls to the formula endpoint and no error. -/
theorem C8_plain_reply (st : ConvState) (store : List Turn) (cid text answer : String)
    (api : List Msg → Option String) (renderer : String → Option String)
    (hg : isGreeting text = false) (hp : st.systemMessage = false)
    (hapi : api (call_gemini_messages (load_chat_memory store cid 20) text false) = some answer)
    (hd : containsSub ['$'] answer.data = false) :
    (handle_text st store cid text api renderer).effects =
      lookupEffects st text ++
        [Effect.geminiCall (call_gemini_messages (load_chat_memory store cid 20) text false),
         Effect.replyText answer] ∧
    (∀ s, Effect.renderCall s ∉ (handle_text st store cid text api renderer).effects) ∧
    (handle_text st store cid text api renderer).error = none := by
  rw [handle_text_plain_eq st store cid text answer api renderer hg hp hapi hd]
  refine ⟨rfl, ?_, rfl⟩
  intro s
  cases hlp : st.last_pdf_id <;> simp [lookupEffects, hlp]

/-- Witness for C8: a concrete markerless reply is sent verbatim with no
render call. -/
theorem C8_plain_reply_witness :
    (handle_text ⟨false, none⟩ [] "c" "two plus two"
        (fun _ => some "four") (fun _ => some "img")).effects =
      lookupEffects ⟨false, none⟩ "two plus two" ++
        [Effect.geminiCall
           (call_gemini_messages (load_chat_memory [] "c" 20) "two plus two" false),
         Effect.replyText "four"] ∧
    Effect.renderCall hardcodedExpr ∉
      (handle_text ⟨false, none⟩ [] "c" "two plus two"
        (fun _ => some "four") (fun _ => some "img")).effects ∧
    (handle_text ⟨false, none⟩ [] "c" "two plus two"
        (fun _ => some "four") (fun _ => some "img")).error = none := by
  have h := C8_plain_reply ⟨false, none⟩ [] "c" "two plus two" "four"
    (fun _ => some "four") (fun _ => some "img") (by decide) rfl rfl (by decide)
  exact ⟨h.1, h.2.1 hardcodedExpr, h.2.2⟩

/-- C9 (counterexample): the claim fails in both extraction-failure modes —
a readable two-page document on which every page yields no text stores the
content "\n" (the join separator), not the empty string; and an unreadable
document, on which the PDF reader raises, aborts ingestion with nothing
stored at all. -/
theorem C9_empty_extraction_counterexample :
    (handle_document 5 5 "D" (some [none, none]) [] ⟨false, none⟩).knowledge =
      [⟨"D", "\n"⟩] ∧
    "\n" ≠ "" ∧
    (handle_document 5 5 "E" none [] ⟨false, none⟩).knowledge = [] ∧
    (handle_document 5 5 "E" none [] ⟨false, none⟩).error = some .pdfread := by
  decide

/-- C9 (amended): when the PDF reader or extractor raises on an unreadable or
corrupt document, ingestion aborts: the exception propagates, nothing is
stored and the conversation state is unchanged.  When the reader succeeds,
ingestion is never aborted: each page yielding no text contributes the empty
string, the newline-joined content is stored under the document's identifier
(consisting solely of newline separators when no page yields text, and equal
to the empty string exactly when the document has at most one page), and the
conversation is primed. -/
theorem C9_extraction_failure_stored :
    (∀ (uid : Int) (fid : String) (knowledge : List KnowledgeUnit) (st : ConvState),
        handle_document uid uid fid none knowledge st =
          ⟨knowledge, st, [], some .pdfread⟩) ∧
    (∀ (uid : Int) (fid : String) (pages : List (Option String))
        (knowledge : List KnowledgeUnit) (st : ConvState),
        (handle_document uid uid fid (some pages) knowledge st).knowledge =
          knowledge ++ [⟨fid, extractText pages⟩] ∧
        (handle_document uid uid fid (some pages) knowledge st).error = none ∧
        (handle_document uid uid fid (some pages) knowledge st).state = ⟨true, some fid⟩) ∧
    (∀ (pages : List (Option String)), (∀ p ∈ pages, p.getD "" = "") →
        (extractText pages).data.all (fun c => c = '\n') = true ∧
        (pages.length ≤ 1 → extractText pages = "")) := by
  refine ⟨?_, ?_, ?_⟩
  · intro uid fid knowledge st
    simp [handle_document]
  · intro uid fid pages knowledge st
    refine ⟨?_, ?_, ?_⟩ <;> simp [handle_document]
  · intro pages hall
    constructor
    · refine joinNL_all_empty _ ?_
      intro s hs
      obtain ⟨p, hp, rfl⟩ := List.mem_map.mp hs
      exact hall p hp
    · intro hlen
      cases pages with
      | nil => rfl
      | cons p rest =>
        cases rest with
        | nil =>
          have hp := hall p (by simp)
          simp [extractText, joinNL, hp]
        | cons q rest2 =>
          simp only [List.length_cons] at hlen
          omega

/-- Witness for C9: a concrete unreadable document aborts with nothing
stored; a concrete readable one-page document with no extractable text stores
the empty content under its identifier and primes the conversation. -/
theorem C9_extraction_failure_stored_witness :
    handle_document 5 5 "D" none [] ⟨false, none⟩ =
      ⟨[], ⟨false, none⟩, [], some .pdfread⟩ ∧
    (handle_document 5 5 "D" (some [none]) [] ⟨false, none⟩).knowledge =
      [] ++ [⟨"D", extractText [none]⟩] ∧
    (handle_document 5 5 "D" (some [none]) [] ⟨false, none⟩).state = ⟨true, some "D"⟩ ∧
    (extractText ([none] : List (Option String))).data.all (fun c => c = '\n') = true ∧
    (([none] : List (Option String)).length ≤ 1 →
      extractText ([none] : List (Option String)) = "") := by
  refine ⟨?_, ?_, ?_, ?_, ?_⟩
  · exact C9_extraction_failure_stored.1 5 "D" [] ⟨false, none⟩
  · exact (C9_extraction_failure_stored.2.1 5 "D" [none] [] ⟨false, none⟩).1
  · exact (C9_extraction_failure_stored.2.1 5 "D" [none] [] ⟨false, none⟩).2.2
  · exact (C9_extraction_failure_stored.2.2 [none] (by decide)).1
  · exact (C9_extraction_failure_stored.2.2 [none] (by decide)).2

/-- C10 (confirmed): a text whose lower-cased form contains a greeting keyword
(also by accidental containment) is answered with the fixed greeting and the
turn ends there: no knowledge lookup, no reasoning call, no memory write, and
the priming flag and active document are unchanged. -/
theorem C10_greeting_shortcut (st : ConvState) (store : List Turn) (cid text : String)
    (api : List Msg → Option String) (renderer : String → Option String)
    (hg : isGreeting text = true) :
    handle_text st store cid text api renderer =
      ⟨st, store, [Effect.replyText greetingReply], none⟩ :=
  handle_text_greeting_eq st store cid text api renderer hg

/-- Witness for C10: "think" accidentally contains "hi"; the state (priming
flag and active document) and the store are untouched and only the fixed
greeting is sent. -/
theorem C10_greeting_shortcut_witness :
    isGreeting "think" = true ∧
    handle_text ⟨true, some "D"⟩ [⟨"c", "user", "a"⟩] "c" "think"
      (fun _ => some "ok") (fun _ => some "img") =
      ⟨⟨true, some "D"⟩, [⟨"c", "user", "a"⟩], [Effect.replyText greetingReply], none⟩ :=
  ⟨by decide, C10_greeting_shortcut ⟨true, some "D"⟩ [⟨"c", "user", "a"⟩] "c" "think"
    (fun _ => some "ok") (fun _ => some "img") (by decide)⟩

end Bot
